import Mathlib

/-!
Verification of the deterministic decision-support core of the SRMA
systematic-review system: the GRADE certainty engine
(`apps/api/app/services/grade_engine.py`), the dual-rater label adjudicator
(`apps/api/app/services/screener.py`), the Cohen-kappa agreement scorer
(`apps/api/app/services/kappa.py`), the Jaro-Winkler title deduplicator
(`apps/api/app/services/dedup.py`), and the PRISMA 2020 compliance
evaluator (`apps/api/app/services/prisma_validator.py`).

The Python floats that the engines only compare (never do float arithmetic
on) are embedded as rationals; Python ints are embedded as `Int`.
Rationale/footnote strings of the GRADE engine interpolate formatted
numbers and are not inspected by any property, so the embedding keeps the
per-domain downgrade decisions and elides the free-text rationales.
-/

/- ### GRADE certainty engine — grade_engine.py -/

/-- The `CERTAINTY_LABELS` dict `{4: "high", 3: "moderate", 2: "low", 1: "very_low"}`,
as a partial lookup (missing keys give `none`, where Python would raise `KeyError`). -/
def CERTAINTY_LABELS (level : Int) : Option String :=
  if level = 4 then some "high"
  else if level = 3 then some "moderate"
  else if level = 2 then some "low"
  else if level = 1 then some "very_low"
  else none

/-- The `CERTAINTY_SYMBOLS` dict mapping each tier to its fixed 4-glyph symbol. -/
def CERTAINTY_SYMBOLS (level : Int) : Option String :=
  if level = 4 then some "⊕⊕⊕⊕"
  else if level = 3 then some "⊕⊕⊕⊝"
  else if level = 2 then some "⊕⊕⊝⊝"
  else if level = 1 then some "⊕⊝⊝⊝"
  else none

/-- The `CERTAINTY_START` dict `{"rct": 4, "observational": 2}`. -/
def CERTAINTY_START (design : String) : Option Int :=
  if design = "rct" then some 4
  else if design = "observational" then some 2
  else none

/-- Source `_assess_rob`: risk-of-bias downgrade points ("low" 0, "some_concerns" 1, else 2).
The rationale string of the Python `DomainResult` is elided. -/
def assess_rob (rob_summary : String) : Int :=
  if rob_summary = "low" then 0
  else if rob_summary = "some_concerns" then 1
  else 2

/-- Source `_assess_inconsistency`: heterogeneity downgrade points. -/
def assess_inconsistency (i2 : ℚ) (prediction_interval_crosses_null : Bool) : Int :=
  if i2 > 75 ∨ (prediction_interval_crosses_null = true ∧ i2 ≥ 50) then 2
  else if i2 ≥ 40 then 1
  else 0

/-- Source `_assess_indirectness`: directness downgrade points. -/
def assess_indirectness (directness : String) : Int :=
  if directness = "direct" then 0
  else if directness = "minor_concerns" then 1
  else 2

/-- Source `_assess_imprecision`: imprecision downgrade points. The null value is 1.0
for ratio measures ("OR"/"RR") and 0.0 otherwise; `crosses_null` means the CI
strictly straddles the null. -/
def assess_imprecision (ci_lower ci_upper : ℚ) (measure : String) (total_n : Int) : Int :=
  let null_val : ℚ := if measure = "OR" ∨ measure = "RR" then 1 else 0
  if total_n < 200 ∧ (ci_lower < null_val ∧ null_val < ci_upper) then 2
  else if (ci_lower < null_val ∧ null_val < ci_upper) ∨ total_n < 400 then 1
  else 0

/-- Source `_assess_publication_bias`: fewer than 10 funnel studies is "not assessable"
(0 points); otherwise 1 point when an Egger p-value is present and below 0.10. -/
def assess_publication_bias (n_studies_for_funnel : Int) (egger_pval : Option ℚ) : Int :=
  if n_studies_for_funnel < 10 then 0
  else
    match egger_pval with
    | some p => if p < mkRat 1 10 then 1 else 0
    | none => 0

/-- Source `_compute_upgrades`: upgrading applies only to observational evidence,
net upgrade capped at 1; returns the (count, reasons) pair of the source. -/
def compute_upgrades (study_design : String) (large_effect dose_response : Bool)
    (residual_confounding_direction : Option String) : Int × List String :=
  if study_design ≠ "observational" then (0, [])
  else
    let reasons : List String :=
      (if large_effect then ["Large effect size (OR/RR ≥ 2 or ≤ 0.5): +1 upgrade"] else []) ++
      (if dose_response then ["Dose–response gradient present: +1 upgrade"] else []) ++
      (if residual_confounding_direction = some "towards_null" then
        ["Residual confounding would attenuate the observed effect (towards null): +1 upgrade"]
       else [])
    (min 1 (reasons.length : Int), reasons)

/-- The fields of the Python `GradeResult` dataclass that carry decisions
(the free-text rationale and footnote strings are elided). -/
structure GradeResult where
  starting_certainty : String
  certainty : String
  downgrade_count : Int
  upgrade_count : Int
  rob_decision : Int
  inconsistency_decision : Int
  indirectness_decision : Int
  imprecision_decision : Int
  publication_bias_decision : Int
  upgrade_reasons : List String
  grade_symbol : String
deriving Repr, DecidableEq

/-- Source `assess_outcome`: the GRADE pipeline. The parameters `outcome_name`,
`n_studies`, `importance` and the `kwargs` catch-all of the source are ignored
by the computation and omitted here. Label/symbol lookups use the dicts above;
the final level always lies in 1..4, so the `getD` defaults never fire. -/
def assess_outcome (study_design : String) (total_n : Int) (rob_summary : String)
    (i2 : ℚ) (prediction_interval_crosses_null : Bool) (directness : String)
    (ci_lower ci_upper : ℚ) (measure : String) (n_studies_for_funnel : Int)
    (egger_pval : Option ℚ) (large_effect dose_response : Bool)
    (residual_confounding_direction : Option String) : GradeResult :=
  let starting_level : Int := (CERTAINTY_START study_design).getD 4
  let rob := assess_rob rob_summary
  let inconsistency := assess_inconsistency i2 prediction_interval_crosses_null
  let indirectness := assess_indirectness directness
  let imprecision := assess_imprecision ci_lower ci_upper measure total_n
  let pub_bias := assess_publication_bias n_studies_for_funnel egger_pval
  let total_down : Int := min 3 (rob + inconsistency + indirectness + imprecision + pub_bias)
  let upres := compute_upgrades study_design large_effect dose_response
    residual_confounding_direction
  let final_level : Int := max 1 (min 4 (starting_level - total_down + upres.1))
  { starting_certainty := (CERTAINTY_LABELS starting_level).getD ""
    certainty := (CERTAINTY_LABELS final_level).getD ""
    downgrade_count := total_down
    upgrade_count := upres.1
    rob_decision := rob
    inconsistency_decision := inconsistency
    indirectness_decision := indirectness
    imprecision_decision := imprecision
    publication_bias_decision := pub_bias
    upgrade_reasons := upres.2
    grade_symbol := (CERTAINTY_SYMBOLS final_level).getD "" }

/- ### Label adjudicator — screener.py -/

/-- Source `resolve_final_label`: agreement passes through; any disagreement involving
"include" resolves to "uncertain"; remaining disagreements resolve to "exclude". -/
def resolve_final_label (label1 label2 : String) : String :=
  if label1 = label2 then label1
  else if label1 = "include" ∨ label2 = "include" then "uncertain"
  else "exclude"

/- ### Agreement scorer — kappa.py -/

/-- The fixed confusion-matrix label order `LABEL_ORDER`. -/
def LABEL_ORDER : List String := ["include", "exclude", "uncertain"]

/-- Modelled from the spec: the observed-agreement term of Cohen kappa
(sklearn.metrics.cohen_kappa_score is an external library, absent from the
repository), "p_o is the fraction of exact-position agreement". -/
def p_o (l1 l2 : List String) : ℚ :=
  ((l1.zip l2).countP (fun p => p.1 == p.2) : ℚ) / (l1.length : ℚ)

/-- Modelled from the spec: the expected-agreement term of Cohen kappa,
"the expected agreement under the two sequences independent marginal
distributions over a 3x3 confusion matrix built with the fixed label order". -/
def p_e (l1 l2 : List String) : ℚ :=
  (LABEL_ORDER.map (fun k =>
    ((l1.count k : ℚ) / (l1.length : ℚ)) * ((l2.count k : ℚ) / (l2.length : ℚ)))).sum

/-- Modelled from the spec: `sklearn.metrics.cohen_kappa_score(l1, l2, labels=LABEL_ORDER)`.
The library raises on mismatched input lengths (an `Except.error` here); on
same-length inputs it computes kappa = (p_o - p_e) / (1 - p_e). -/
def cohen_kappa_score (l1 l2 : List String) : Except String ℚ :=
  if l1.length ≠ l2.length then
    .error "Found input variables with inconsistent numbers of samples"
  else
    .ok ((p_o l1 l2 - p_e l1 l2) / (1 - p_e l1 l2))

/-- Modelled from the spec: Python `round(x, 4)` — round to 4 decimal places.
(Python rounds exact ties to even; this model rounds ties up. The two agree
everywhere except at exact multiples of 1/20000, which no property exercises.) -/
def round4 (q : ℚ) : ℚ := (round (q * 10000) : ℚ) / 10000

/-- Source `compute_kappa`: `None` for fewer than 2 samples or fewer than 2 distinct
labels across both lists (`set(a) | set(b)`), else the rounded kappa score;
the `try/except` of the source maps any error from the scorer to `None`. -/
def compute_kappa (agent1_labels agent2_labels : List String) : Option ℚ :=
  if agent1_labels.length < 2 then none
  else if (agent1_labels.toFinset ∪ agent2_labels.toFinset).card < 2 then none
  else
    match cohen_kappa_score agent1_labels agent2_labels with
    | .ok kappa => some (round4 kappa)
    | .error _ => none

/- ### Title deduplicator — dedup.py -/

/-- Source `THRESHOLD = 0.95`: similarity score at or above which titles are duplicates. -/
def THRESHOLD : ℚ := mkRat 95 100

/-- Python `str.lower`, per character (the builtin `String.toLower` computes
the same string but is not reducible by the kernel). -/
def strLower (s : String) : String := ⟨s.data.map Char.toLower⟩

/-- Python `str.strip`: drop surrounding whitespace. -/
def strStrip (s : String) : String :=
  ⟨((s.data.dropWhile Char.isWhitespace).reverse.dropWhile Char.isWhitespace).reverse⟩

/-- Source `_normalise`: falsy (missing or empty) titles give `""`; otherwise
lowercase and trim surrounding whitespace. -/
def normalise (title : Option String) : String :=
  match title with
  | none => ""
  | some t => if t = "" then "" else strStrip (strLower t)

/-- The inner `for orig_id, orig_norm in originals: ... break` loop of
`find_duplicates`: the first kept original scoring at or above `THRESHOLD`
wins; `none` when no original reaches the threshold. The Jaro-Winkler scorer
(rapidfuzz, an external library absent from the repository) is the abstract
parameter `sim`; the spec describes it only as a similarity in [0, 1] that is
maximal on identical strings. -/
def firstMatch (sim : String → String → ℚ) (norm : String) :
    List (ℕ × String) → Option ℕ
  | [] => none
  | (orig_id, orig_norm) :: rest =>
    if THRESHOLD ≤ sim norm orig_norm then some orig_id
    else firstMatch sim norm rest

/-- The main loop of `find_duplicates`, with the accumulated ordered list of
kept originals as explicit state. Empty normalized titles skip the comparison
loop (treated as unique), and every non-duplicate is appended to the
originals — including empty-titled ones, exactly as in the source. -/
def findDupGo (sim : String → String → ℚ) :
    List (ℕ × Option String) → List (ℕ × String) → List (ℕ × Option ℕ)
  | [], _ => []
  | (paper_id, raw_title) :: rest, originals =>
    let norm := normalise raw_title
    let duplicate_of : Option ℕ :=
      if norm = "" then none else firstMatch sim norm originals
    match duplicate_of with
    | none => (paper_id, none) :: findDupGo sim rest (originals ++ [(paper_id, norm)])
    | some orig => (paper_id, some orig) :: findDupGo sim rest originals

/-- Source `find_duplicates`: maps each paper id to `none` (kept as an original) or
to the id of the paper it duplicates. The insertion-ordered Python dict is
embedded as the association list in input order. -/
def find_duplicates (sim : String → String → ℚ)
    (papers : List (ℕ × Option String)) : List (ℕ × Option ℕ) :=
  findDupGo sim papers []

/-- The number of records flagged as duplicates (mapped to a non-`None` id). -/
def duplicateCount (res : List (ℕ × Option ℕ)) : ℕ :=
  res.countP (fun p => p.2.isSome)

/- ### PRISMA compliance evaluator — prisma_validator.py -/

/-- The caller-assembled review state consumed by the evaluator: the booleans
`validate_prisma` derives from the database before building the checklist
(the database itself is an external collaborator; per the spec the evaluator
is a pure mapping over this snapshot). -/
structure ReviewStateSnapshot where
  title_ok : Bool
  abstract_ok : Bool
  pico_ok : Bool
  db_ok : Bool
  search_string_ok : Bool
  screening_ok : Bool
  phase8_ok : Bool
  phase9_ok : Bool
  grade_ok : Bool
deriving Repr, DecidableEq

/-- One PRISMA checklist item, as in `schemas/prisma_check.PrismaItem`. -/
structure PrismaItem where
  item_number : ℕ
  domain : String
  description : String
  status : String
  notes : Option String
deriving Repr, DecidableEq

/-- The `PRISMA_ITEMS` table: (number, domain, description) for all 27 items. -/
def PRISMA_ITEMS : List (ℕ × String × String) :=
  [(1, "Title", "Identify the report as a systematic review."),
   (2, "Abstract", "See the PRISMA 2020 for Abstracts checklist."),
   (3, "Introduction: Rationale", "Describe the rationale for the review in the context of existing knowledge."),
   (4, "Introduction: Objectives", "Provide an explicit statement of the objective(s) or question(s) the review addresses."),
   (5, "Methods: Eligibility criteria", "Specify the inclusion and exclusion criteria for the review."),
   (6, "Methods: Information sources", "Specify all databases, registers, websites, organisations, reference lists and other sources searched or consulted to identify studies."),
   (7, "Methods: Search strategy", "Present the full search strategies for all databases, registers and websites, including any filters and limits used."),
   (8, "Methods: Selection process", "Specify the methods used to decide whether a study met the inclusion criteria of the review."),
   (9, "Methods: Data collection process", "Specify the methods used to collect data from reports."),
   (10, "Methods: Data items", "List and define all outcomes for which data were sought."),
   (11, "Methods: Study risk of bias assessment", "Specify the methods used to assess risk of bias in the included studies."),
   (12, "Methods: Effect measures", "Specify for each outcome the effect measure(s) used in the synthesis or presentation of results."),
   (13, "Methods: Synthesis methods", "Describe the methods used to present and synthesise results."),
   (14, "Methods: Reporting bias assessment", "Describe any methods used to assess risk of bias due to missing results in a synthesis."),
   (15, "Methods: Certainty assessment", "Describe any methods used to assess certainty (or confidence) in the body of evidence."),
   (16, "Results: Study selection", "Describe the results of the search and selection process, including reasons for exclusions."),
   (17, "Results: Study characteristics", "Cite each included study and present its characteristics."),
   (18, "Results: Risk of bias in studies", "Present assessments of risk of bias for each included study."),
   (19, "Results: Results of individual studies", "For all outcomes, present, for each study, all the data from which a synthesis was produced."),
   (20, "Results: Results of syntheses", "For each synthesis, briefly summarise the characteristics and risk of bias among contributing studies."),
   (21, "Results: Reporting biases", "Present assessments of risk of bias due to missing results for each synthesis assessed."),
   (22, "Results: Certainty of evidence", "Present assessments of certainty of evidence for each outcome assessed."),
   (23, "Discussion: Discussion of results", "Provide a general interpretation of the results in the context of other evidence."),
   (24, "Discussion: Limitations of evidence", "Discuss any limitations of the evidence included in the review."),
   (25, "Discussion: Limitations of review process", "Discuss any limitations of the review process or methods."),
   (26, "Discussion: Conclusions", "Provide a general interpretation of the results and any implications for research, practice and policy."),
   (27, "Other: Registration and protocol", "Provide registration information for the review, including register name and registration number.")]

/-- The per-item branch of the `for item_num, domain, description in PRISMA_ITEMS`
loop: the (status, notes) pair assigned to each item number. -/
def prismaStatusNotes (s : ReviewStateSnapshot) (item_num : ℕ) : String × Option String :=
  if item_num = 1 then
    if s.title_ok then ("satisfied", none)
    else ("missing", some "Review title is empty or missing")
  else if item_num = 2 then
    if s.abstract_ok then ("satisfied", none)
    else ("missing", some "Requires Phase 1 (protocol) and Phase 2 (search) data")
  else if item_num = 5 then
    if s.pico_ok then ("satisfied", none)
    else ("missing", some "PICO schema missing one or more required keys (population, intervention, comparator, outcomes, study_designs)")
  else if item_num = 6 then
    if s.db_ok then ("satisfied", none)
    else ("missing", some "Search database not recorded in Phase 2")
  else if item_num = 7 then
    if s.search_string_ok then ("satisfied", none)
    else ("missing", some "Search string not recorded in Phase 2")
  else if item_num = 13 then
    if s.screening_ok then ("satisfied", none)
    else ("missing", some "No screening decisions recorded (Phase 3/4)")
  else if item_num = 16 ∨ item_num = 17 ∨ item_num = 18 ∨ item_num = 19 then
    if s.phase8_ok then ("satisfied", none)
    else ("missing", some "Requires Phase 8 (meta-analysis) data")
  else if item_num = 20 then
    if s.phase8_ok then ("satisfied", none)
    else ("missing", some "Requires Phase 8 (meta-analysis) data")
  else if item_num = 21 then
    if s.phase9_ok then ("satisfied", none)
    else ("missing", some "Requires Phase 9 (publication bias) data")
  else if item_num = 22 then
    if s.grade_ok then ("satisfied", none)
    else ("missing", some "Requires Phase 10 (GRADE) data")
  else
    ("partial", some "Machine-checkable data present but narrative content requires author review")

/-- The `PrismaCheckResponse` schema: aggregate tallies plus the checklist.
The Python field named `partial` is `partialCount` here (`partial` is a Lean
keyword). -/
structure PrismaCheckResponse where
  total_items : ℕ
  satisfied : ℕ
  partialCount : ℕ
  missing : ℕ
  not_applicable : ℕ
  is_compliant : Bool
  checklist : List PrismaItem
deriving Repr, DecidableEq

/-- Source `validate_prisma`, restricted to its pure part: builds the 27-item
checklist from the snapshot and tallies the statuses. -/
def validate_prisma (s : ReviewStateSnapshot) : PrismaCheckResponse :=
  let checklist : List PrismaItem := PRISMA_ITEMS.map (fun it =>
    let sn := prismaStatusNotes s it.1
    { item_number := it.1, domain := it.2.1, description := it.2.2
      status := sn.1, notes := sn.2 })
  let satisfied := checklist.countP (fun i => i.status == "satisfied")
  let partialC := checklist.countP (fun i => i.status == "partial")
  let missingC := checklist.countP (fun i => i.status == "missing")
  let naC := checklist.countP (fun i => i.status == "not_applicable")
  { total_items := 27
    satisfied := satisfied
    partialCount := partialC
    missing := missingC
    not_applicable := naC
    is_compliant := missingC == 0
    checklist := checklist }

/-- A snapshot with nothing set. -/
def emptySnapshot : ReviewStateSnapshot :=
  { title_ok := false, abstract_ok := false, pico_ok := false, db_ok := false
    search_string_ok := false, screening_ok := false, phase8_ok := false
    phase9_ok := false, grade_ok := false }

/- ### Spec-side formulations (written from the spec text, for comparison) -/

/-- Spec formulation of the starting tier: rct 4, observational 2, any other
design value defaults to 4. -/
def specStartTier (study_design : String) : Int :=
  if study_design = "rct" then 4
  else if study_design = "observational" then 2
  else 4

/-- Spec formulation of the final-tier clamp to the range [1, 4]. -/
def clampTier (x : Int) : Int := max 1 (min 4 x)

/-- Spec formulation of the tier-to-label map {4: high, 3: moderate, 2: low, 1: very_low}. -/
def tierLabel (t : Int) : String :=
  if t = 4 then "high" else if t = 3 then "moderate"
  else if t = 2 then "low" else "very_low"

/-- Spec formulation of the tier-to-symbol map (four glyphs per tier). -/
def tierSymbol (t : Int) : String :=
  if t = 4 then "⊕⊕⊕⊕" else if t = 3 then "⊕⊕⊕⊝"
  else if t = 2 then "⊕⊕⊝⊝" else "⊕⊝⊝⊝"

/- ### Helper lemmas -/

lemma certainty_start_getD (study_design : String) :
    (CERTAINTY_START study_design).getD 4 = specStartTier study_design := by
  unfold CERTAINTY_START specStartTier
  split_ifs <;> rfl

lemma clampTier_bounds (x : Int) : 1 ≤ clampTier x ∧ clampTier x ≤ 4 := by
  unfold clampTier
  omega

lemma certainty_label_clamp (x : Int) :
    (CERTAINTY_LABELS (clampTier x)).getD "" = tierLabel (clampTier x) := by
  obtain ⟨h1, h4⟩ := clampTier_bounds x
  have h : clampTier x = 1 ∨ clampTier x = 2 ∨ clampTier x = 3 ∨ clampTier x = 4 := by omega
  rcases h with h | h | h | h <;> rw [h] <;> rfl

lemma certainty_symbol_clamp (x : Int) :
    (CERTAINTY_SYMBOLS (clampTier x)).getD "" = tierSymbol (clampTier x) := by
  obtain ⟨h1, h4⟩ := clampTier_bounds x
  have h : clampTier x = 1 ∨ clampTier x = 2 ∨ clampTier x = 3 ∨ clampTier x = 4 := by omega
  rcases h with h | h | h | h <;> rw [h] <;> rfl


/-- Spec formulation of the net downgrade: sum of the five per-domain
downgrade points, capped at 3. -/
def specNetDown (rob_summary : String) (i2 : ℚ) (pic : Bool) (directness : String)
    (ci_lower ci_upper : ℚ) (measure : String) (total_n n_funnel : Int)
    (egger : Option ℚ) : Int :=
  min 3 (assess_rob rob_summary + assess_inconsistency i2 pic +
    assess_indirectness directness + assess_imprecision ci_lower ci_upper measure total_n +
    assess_publication_bias n_funnel egger)

/-- Spec formulation of the final tier: start minus net downgrade plus net
upgrade, clamped to [1, 4]. -/
def specFinalTier (study_design rob_summary directness measure : String)
    (i2 ci_lower ci_upper : ℚ) (pic : Bool) (total_n n_funnel : Int)
    (egger : Option ℚ) (large_effect dose_response : Bool)
    (residual : Option String) : Int :=
  clampTier (specStartTier study_design -
    specNetDown rob_summary i2 pic directness ci_lower ci_upper measure total_n n_funnel egger +
    (compute_upgrades study_design large_effect dose_response residual).1)

/-- C1: for every input, `assess_outcome` starts at tier 4 for "rct", 2 for
"observational", 4 for any other design; its net downgrade is the sum of the
five per-domain points capped at 3; and its final tier is the start minus net
downgrade plus net upgrade clamped to [1, 4], mapped to the fixed labels and
4-glyph symbols. -/
theorem C1_assess_outcome_tier_pipeline
    (study_design rob_summary directness measure : String)
    (i2 ci_lower ci_upper : ℚ) (pic : Bool) (total_n n_funnel : Int)
    (egger : Option ℚ) (large_effect dose_response : Bool) (residual : Option String) :
    (assess_outcome study_design total_n rob_summary i2 pic directness
        ci_lower ci_upper measure n_funnel egger large_effect dose_response
        residual).starting_certainty = tierLabel (specStartTier study_design) ∧
    (assess_outcome study_design total_n rob_summary i2 pic directness
        ci_lower ci_upper measure n_funnel egger large_effect dose_response
        residual).downgrade_count =
      specNetDown rob_summary i2 pic directness ci_lower ci_upper measure total_n
        n_funnel egger ∧
    1 ≤ specFinalTier study_design rob_summary directness measure i2 ci_lower ci_upper
        pic total_n n_funnel egger large_effect dose_response residual ∧
    specFinalTier study_design rob_summary directness measure i2 ci_lower ci_upper
        pic total_n n_funnel egger large_effect dose_response residual ≤ 4 ∧
    (assess_outcome study_design total_n rob_summary i2 pic directness
        ci_lower ci_upper measure n_funnel egger large_effect dose_response
        residual).certainty =
      tierLabel (specFinalTier study_design rob_summary directness measure i2 ci_lower
        ci_upper pic total_n n_funnel egger large_effect dose_response residual) ∧
    (assess_outcome study_design total_n rob_summary i2 pic directness
        ci_lower ci_upper measure n_funnel egger large_effect dose_response
        residual).grade_symbol =
      tierSymbol (specFinalTier study_design rob_summary directness measure i2 ci_lower
        ci_upper pic total_n n_funnel egger large_effect dose_response residual) := by
  obtain ⟨hb1, hb4⟩ := clampTier_bounds (specStartTier study_design -
    specNetDown rob_summary i2 pic directness ci_lower ci_upper measure total_n n_funnel egger +
    (compute_upgrades study_design large_effect dose_response residual).1)
  refine ⟨?_, rfl, hb1, hb4, ?_, ?_⟩
  · show (CERTAINTY_LABELS ((CERTAINTY_START study_design).getD 4)).getD "" =
      tierLabel (specStartTier study_design)
    rw [certainty_start_getD]
    unfold specStartTier tierLabel
    split_ifs <;> first | rfl | omega
  · show (CERTAINTY_LABELS (max 1 (min 4 ((CERTAINTY_START study_design).getD 4 -
        specNetDown rob_summary i2 pic directness ci_lower ci_upper measure total_n
          n_funnel egger +
        (compute_upgrades study_design large_effect dose_response residual).1)))).getD "" = _
    rw [certainty_start_getD]
    exact certainty_label_clamp _
  · show (CERTAINTY_SYMBOLS (max 1 (min 4 ((CERTAINTY_START study_design).getD 4 -
        specNetDown rob_summary i2 pic directness ci_lower ci_upper measure total_n
          n_funnel egger +
        (compute_upgrades study_design large_effect dose_response residual).1)))).getD "" = _
    rw [certainty_start_getD]
    exact certainty_symbol_clamp _

/-- C2: `resolve_final_label` satisfies the 9-entry adjudication truth table
over {include, exclude, uncertain}: agreement passes through, any disagreement
involving include gives uncertain, exclude vs uncertain gives exclude. -/
theorem C2_resolve_final_label_truth_table :
    resolve_final_label "include" "include" = "include" ∧
    resolve_final_label "exclude" "exclude" = "exclude" ∧
    resolve_final_label "uncertain" "uncertain" = "uncertain" ∧
    resolve_final_label "include" "exclude" = "uncertain" ∧
    resolve_final_label "exclude" "include" = "uncertain" ∧
    resolve_final_label "include" "uncertain" = "uncertain" ∧
    resolve_final_label "uncertain" "include" = "uncertain" ∧
    resolve_final_label "exclude" "uncertain" = "exclude" ∧
    resolve_final_label "uncertain" "exclude" = "exclude" := by
  decide

/-- C3: upgrades never apply outside observational designs — `assess_outcome`
returns upgrade count 0 and no upgrade reasons whenever the design differs
from "observational", regardless of the three upgrade flags — and for
observational designs the upgrade count is min(1, number of qualifying
factors). -/
theorem C3_upgrades_only_observational
    (study_design rob_summary directness measure : String)
    (i2 ci_lower ci_upper : ℚ) (pic : Bool) (total_n n_funnel : Int)
    (egger : Option ℚ) (large_effect dose_response : Bool) (residual : Option String) :
    (study_design ≠ "observational" →
      (assess_outcome study_design total_n rob_summary i2 pic directness ci_lower ci_upper
        measure n_funnel egger large_effect dose_response residual).upgrade_count = 0 ∧
      (assess_outcome study_design total_n rob_summary i2 pic directness ci_lower ci_upper
        measure n_funnel egger large_effect dose_response residual).upgrade_reasons = []) ∧
    (assess_outcome "observational" total_n rob_summary i2 pic directness ci_lower ci_upper
        measure n_funnel egger large_effect dose_response residual).upgrade_count =
      min 1 ((if large_effect then 1 else 0) + (if dose_response then 1 else 0) +
        (if residual = some "towards_null" then 1 else 0) : Int) := by
  constructor
  · intro h
    constructor <;> simp [assess_outcome, compute_upgrades, h]
  · cases large_effect <;> cases dose_response <;>
      by_cases h : residual = some "towards_null" <;>
      simp [assess_outcome, compute_upgrades, h]

/-- C3 witness: upgrade flags all set on an RCT input still give upgrade count 0. -/
theorem C3_witness :
    (assess_outcome "rct" 100 "low" 10 false "direct" 2 3 "OR" 5 none true true
      (some "towards_null")).upgrade_count = 0 :=
  ((C3_upgrades_only_observational "rct" "low" "direct" "OR" 10 2 3 false 100 5 none
    true true (some "towards_null")).1 (by decide)).1

/-- Spec formulation of the crosses-the-null condition of the imprecision
domain: the null value is 1.0 for OR/RR and 0.0 otherwise. -/
abbrev crossesNull (ci_lower ci_upper : ℚ) (measure : String) : Prop :=
  ci_lower < (if measure = "OR" ∨ measure = "RR" then (1 : ℚ) else 0) ∧
  (if measure = "OR" ∨ measure = "RR" then (1 : ℚ) else 0) < ci_upper

/-- C4: the imprecision domain awards 2 points when total n is below 200 and
the CI crosses the null (1.0 for OR/RR, 0.0 otherwise); otherwise exactly 1
point when the CI crosses the null or total n is below 400 (even when both
sub-conditions hold); otherwise 0. -/
theorem C4_imprecision_points (ci_lower ci_upper : ℚ) (measure : String) (total_n : Int) :
    (total_n < 200 ∧ crossesNull ci_lower ci_upper measure →
      assess_imprecision ci_lower ci_upper measure total_n = 2) ∧
    (¬(total_n < 200 ∧ crossesNull ci_lower ci_upper measure) →
      (crossesNull ci_lower ci_upper measure ∨ total_n < 400) →
      assess_imprecision ci_lower ci_upper measure total_n = 1) ∧
    (¬ crossesNull ci_lower ci_upper measure → ¬(total_n < 400) →
      assess_imprecision ci_lower ci_upper measure total_n = 0) := by
  have he : assess_imprecision ci_lower ci_upper measure total_n =
      if total_n < 200 ∧ crossesNull ci_lower ci_upper measure then 2
      else if crossesNull ci_lower ci_upper measure ∨ total_n < 400 then 1
      else 0 := rfl
  rw [he]
  split_ifs <;> tauto

/-- C4 witness: a small-sample CI crossing the OR null gives 2 points. -/
theorem C4_witness : assess_imprecision 0 2 "OR" 100 = 2 :=
  (C4_imprecision_points 0 2 "OR" 100).1 (by exact ⟨by decide, by decide, by decide⟩)

set_option maxHeartbeats 1600000 in
lemma prisma_status_cases (s : ReviewStateSnapshot) (n : ℕ) :
    (prismaStatusNotes s n).1 = "satisfied" ∨ (prismaStatusNotes s n).1 = "partial" ∨
    (prismaStatusNotes s n).1 = "missing" := by
  unfold prismaStatusNotes
  split_ifs <;> simp

lemma prisma_checklist_status_mem (s : ReviewStateSnapshot) :
    ∀ i ∈ (validate_prisma s).checklist,
      i.status = "satisfied" ∨ i.status = "partial" ∨ i.status = "missing" := by
  intro i hi
  simp only [validate_prisma, List.mem_map] at hi
  obtain ⟨it, hit, rfl⟩ := hi
  exact prisma_status_cases s it.1

lemma countP_status_partition (l : List PrismaItem)
    (h : ∀ i ∈ l, i.status = "satisfied" ∨ i.status = "partial" ∨ i.status = "missing") :
    l.countP (fun i => i.status == "satisfied") + l.countP (fun i => i.status == "partial") +
      l.countP (fun i => i.status == "missing") +
      l.countP (fun i => i.status == "not_applicable") = l.length := by
  induction l with
  | nil => simp
  | cons a t ih =>
    have ha := h a (List.mem_cons_self a t)
    have ht : ∀ i ∈ t, i.status = "satisfied" ∨ i.status = "partial" ∨ i.status = "missing" :=
      fun i hi => h i (List.mem_cons_of_mem a hi)
    have ih' := ih ht
    rcases ha with ha | ha | ha <;>
      simp only [List.countP_cons, List.length_cons, ha] <;> simp <;> omega

lemma prisma_checklist_length (s : ReviewStateSnapshot) :
    (validate_prisma s).checklist.length = 27 := by
  simp [validate_prisma, PRISMA_ITEMS]

lemma prisma_counts_sum (s : ReviewStateSnapshot) :
    (validate_prisma s).satisfied + (validate_prisma s).partialCount +
      (validate_prisma s).missing + (validate_prisma s).not_applicable = 27 := by
  have h := countP_status_partition (validate_prisma s).checklist (prisma_checklist_status_mem s)
  rw [prisma_checklist_length s] at h
  exact h

lemma prisma_na_zero (s : ReviewStateSnapshot) :
    (validate_prisma s).not_applicable = 0 := by
  show (validate_prisma s).checklist.countP (fun i => i.status == "not_applicable") = 0
  rw [List.countP_eq_zero]
  intro i hi
  rcases prisma_checklist_status_mem s i hi with h | h | h <;> rw [h] <;> decide

lemma prisma_compliant_iff (s : ReviewStateSnapshot) :
    (validate_prisma s).is_compliant = true ↔ (validate_prisma s).missing = 0 := by
  show ((validate_prisma s).missing == 0) = true ↔ (validate_prisma s).missing = 0
  exact beq_iff_eq

/-- C9: for every snapshot the evaluator returns exactly 27 items, numbered 1
through 27 in ascending order; the four aggregate tallies sum to 27;
compliance holds exactly when nothing is missing; and the all-unset snapshot
is non-compliant with a positive missing count. -/
theorem C9_validate_prisma_checklist_invariants (s : ReviewStateSnapshot) :
    (validate_prisma s).checklist.map (fun i => i.item_number) = List.range' 1 27 ∧
    (validate_prisma s).total_items = 27 ∧
    (validate_prisma s).satisfied + (validate_prisma s).partialCount +
      (validate_prisma s).missing + (validate_prisma s).not_applicable = 27 ∧
    ((validate_prisma s).is_compliant = true ↔ (validate_prisma s).missing = 0) ∧
    (validate_prisma emptySnapshot).is_compliant = false ∧
    0 < (validate_prisma emptySnapshot).missing := by
  refine ⟨rfl, rfl, prisma_counts_sum s, prisma_compliant_iff s, by decide, by decide⟩

/-- C10: no checklist item is ever assigned "not_applicable" — every status is
satisfied, missing or partial — so the not_applicable tally is always 0 and
compliance holds exactly when satisfied plus partial equals 27. -/
theorem C10_not_applicable_never_assigned (s : ReviewStateSnapshot) :
    ((validate_prisma s).checklist.all (fun i =>
      i.status == "satisfied" || i.status == "missing" || i.status == "partial")) = true ∧
    (validate_prisma s).not_applicable = 0 ∧
    ((validate_prisma s).is_compliant = true ↔
      (validate_prisma s).satisfied + (validate_prisma s).partialCount = 27) := by
  refine ⟨?_, prisma_na_zero s, ?_⟩
  · rw [List.all_eq_true]
    intro i hi
    rcases prisma_checklist_status_mem s i hi with h | h | h <;> rw [h] <;> decide
  · have hsum := prisma_counts_sum s
    have hna := prisma_na_zero s
    rw [prisma_compliant_iff s]
    omega

lemma count_labels_eq_length (l : List String) (h : ∀ x ∈ l, x ∈ LABEL_ORDER) :
    l.count "include" + l.count "exclude" + l.count "uncertain" = l.length := by
  induction l with
  | nil => simp
  | cons a t ih =>
    have ha := h a (List.mem_cons_self a t)
    have ih' := ih (fun x hx => h x (List.mem_cons_of_mem a hx))
    simp only [LABEL_ORDER, List.mem_cons, List.not_mem_nil, or_false] at ha
    rcases ha with ha | ha | ha <;> subst ha <;>
      simp [List.count_cons] <;> omega

lemma exists_label_low_count (l1 l2 : List String) (hlen : l1.length = l2.length)
    (h2 : 2 ≤ l1.length) (halpha : ∀ x ∈ l1 ++ l2, x ∈ LABEL_ORDER)
    (hcard : 2 ≤ (l1.toFinset ∪ l2.toFinset).card) :
    ∃ k ∈ LABEL_ORDER, 1 ≤ l1.count k ∧ l2.count k < l2.length := by
  have hl1ne : l1 ≠ [] := by
    intro h
    rw [h] at h2
    simp at h2
  obtain ⟨k0, t0, hk0⟩ := List.exists_cons_of_ne_nil hl1ne
  have hk0mem : k0 ∈ l1 := by
    rw [hk0]
    exact List.mem_cons_self k0 t0
  by_cases hc : l2.count k0 < l2.length
  · exact ⟨k0, halpha k0 (List.mem_append_left l2 hk0mem),
      List.count_pos_iff.mpr hk0mem, hc⟩
  · have hceq : l2.count k0 = l2.length := by
      have := List.count_le_length k0 l2
      omega
    have hall2 : ∀ x ∈ l2, x = k0 := by
      rw [List.count_eq_length] at hceq
      intro x hx
      exact (hceq x hx).symm
    obtain ⟨a, ha, b, hb, hab⟩ := Finset.one_lt_card.mp (by omega : 1 < (l1.toFinset ∪ l2.toFinset).card)
    have ha' : a ∈ l1 ∨ a ∈ l2 := by
      simpa [List.mem_toFinset, Finset.mem_union] using ha
    have hb' : b ∈ l1 ∨ b ∈ l2 := by
      simpa [List.mem_toFinset, Finset.mem_union] using hb
    have hx : ∃ x, (x ∈ l1 ∨ x ∈ l2) ∧ x ≠ k0 := by
      by_cases hak : a = k0
      · exact ⟨b, hb', fun h => hab (by rw [hak, h])⟩
      · exact ⟨a, ha', hak⟩
    obtain ⟨x, hx12, hxk⟩ := hx
    have hxl1 : x ∈ l1 := by
      rcases hx12 with h | h
      · exact h
      · exact absurd (hall2 x h) hxk
    have hx2 : l2.count x = 0 := by
      rw [List.count_eq_zero]
      intro hmem
      exact hxk (hall2 x hmem)
    refine ⟨x, halpha x (List.mem_append_left l2 hxl1), List.count_pos_iff.mpr hxl1, ?_⟩
    rw [hx2]
    omega

lemma p_e_eq (l1 l2 : List String) (h1 : (l1.length : ℚ) ≠ 0) (h2 : (l2.length : ℚ) ≠ 0) :
    p_e l1 l2 = ((l1.count "include" : ℚ) * (l2.count "include" : ℚ) +
        (l1.count "exclude" : ℚ) * (l2.count "exclude" : ℚ) +
        (l1.count "uncertain" : ℚ) * (l2.count "uncertain" : ℚ)) /
      ((l1.length : ℚ) * (l2.length : ℚ)) := by
  unfold p_e LABEL_ORDER
  simp only [List.map_cons, List.map_nil, List.sum_cons, List.sum_nil, add_zero]
  field_simp
  ring

lemma sum3_products_lt (a1 a2 a3 b1 b2 b3 n : ℚ)
    (ha : a1 + a2 + a3 = n) (hb : b1 + b2 + b3 = n)
    (ha1 : 0 ≤ a1) (ha2 : 0 ≤ a2) (ha3 : 0 ≤ a3)
    (hb1 : 0 ≤ b1) (hb2 : 0 ≤ b2) (hb3 : 0 ≤ b3)
    (h : (1 ≤ a1 ∧ b1 + 1 ≤ n) ∨ (1 ≤ a2 ∧ b2 + 1 ≤ n) ∨ (1 ≤ a3 ∧ b3 + 1 ≤ n)) :
    a1 * b1 + a2 * b2 + a3 * b3 < n * n := by
  have hmn : (a1 + a2 + a3) * n = n * n := by rw [ha]
  rcases h with ⟨hq1, hq2⟩ | ⟨hq1, hq2⟩ | ⟨hq1, hq2⟩
  · nlinarith [hmn, mul_le_mul_of_nonneg_left hq2 ha1,
      mul_le_mul_of_nonneg_left (show b2 ≤ n by linarith) ha2,
      mul_le_mul_of_nonneg_left (show b3 ≤ n by linarith) ha3]
  · nlinarith [hmn, mul_le_mul_of_nonneg_left hq2 ha2,
      mul_le_mul_of_nonneg_left (show b1 ≤ n by linarith) ha1,
      mul_le_mul_of_nonneg_left (show b3 ≤ n by linarith) ha3]
  · nlinarith [hmn, mul_le_mul_of_nonneg_left hq2 ha3,
      mul_le_mul_of_nonneg_left (show b1 ≤ n by linarith) ha1,
      mul_le_mul_of_nonneg_left (show b2 ≤ n by linarith) ha2]

lemma p_e_lt_one (l1 l2 : List String) (hlen : l1.length = l2.length)
    (h2 : 2 ≤ l1.length) (halpha : ∀ x ∈ l1 ++ l2, x ∈ LABEL_ORDER)
    (hcard : 2 ≤ (l1.toFinset ∪ l2.toFinset).card) :
    p_e l1 l2 < 1 := by
  have hn1 : (l1.length : ℚ) ≠ 0 := Nat.cast_ne_zero.mpr (by omega)
  have hn2 : (l2.length : ℚ) ≠ 0 := Nat.cast_ne_zero.mpr (by omega)
  obtain ⟨k, hkmem, hk1, hk2⟩ := exists_label_low_count l1 l2 hlen h2 halpha hcard
  have ha := count_labels_eq_length l1 (fun x hx => halpha x (List.mem_append_left l2 hx))
  have hb := count_labels_eq_length l2 (fun x hx => halpha x (List.mem_append_right l1 hx))
  rw [p_e_eq l1 l2 hn1 hn2, div_lt_one (by positivity)]
  rw [hlen] at ha
  have ha' : (l1.count "include" : ℚ) + (l1.count "exclude" : ℚ) +
      (l1.count "uncertain" : ℚ) = (l2.length : ℚ) := by exact_mod_cast congrArg Nat.cast ha
  have hb' : (l2.count "include" : ℚ) + (l2.count "exclude" : ℚ) +
      (l2.count "uncertain" : ℚ) = (l2.length : ℚ) := by exact_mod_cast congrArg Nat.cast hb
  have hgoal : (1 : ℚ) * 1 = 1 := by norm_num
  have hcase : ((1 : ℚ) ≤ (l1.count "include" : ℚ) ∧ ((l2.count "include" : ℚ) + 1 ≤ (l2.length : ℚ))) ∨
      ((1 : ℚ) ≤ (l1.count "exclude" : ℚ) ∧ ((l2.count "exclude" : ℚ) + 1 ≤ (l2.length : ℚ))) ∨
      ((1 : ℚ) ≤ (l1.count "uncertain" : ℚ) ∧ ((l2.count "uncertain" : ℚ) + 1 ≤ (l2.length : ℚ))) := by
    simp only [LABEL_ORDER, List.mem_cons, List.not_mem_nil, or_false] at hkmem
    rcases hkmem with rfl | rfl | rfl
    · exact Or.inl ⟨by exact_mod_cast hk1, by exact_mod_cast hk2⟩
    · exact Or.inr (Or.inl ⟨by exact_mod_cast hk1, by exact_mod_cast hk2⟩)
    · exact Or.inr (Or.inr ⟨by exact_mod_cast hk1, by exact_mod_cast hk2⟩)
  have hlen' : ((l1.length : ℚ)) = (l2.length : ℚ) := by exact_mod_cast congrArg Nat.cast hlen
  rw [hlen']
  exact sum3_products_lt _ _ _ _ _ _ _ ha' hb'
    (by positivity) (by positivity) (by positivity)
    (by positivity) (by positivity) (by positivity) hcase

/-- C5: `compute_kappa` returns None exactly when there are fewer than 2
paired observations or fewer than 2 distinct labels across both sequences;
on all other same-length inputs over the label alphabet it returns Cohen
kappa (whose expected-agreement term is then provably below 1, so the
statistic is well defined) rounded to 4 decimals; and the value can be
negative, never clamped to 0: a fully inverted pair gives kappa = -1. -/
theorem C5_compute_kappa_none_iff (l1 l2 : List String) (hlen : l1.length = l2.length)
    (halpha : ∀ x ∈ l1 ++ l2, x ∈ LABEL_ORDER) :
    (compute_kappa l1 l2 = none ↔
      l1.length < 2 ∨ (l1.toFinset ∪ l2.toFinset).card < 2) ∧
    (2 ≤ l1.length → 2 ≤ (l1.toFinset ∪ l2.toFinset).card →
      p_e l1 l2 < 1 ∧
      compute_kappa l1 l2 = some (round4 ((p_o l1 l2 - p_e l1 l2) / (1 - p_e l1 l2)))) ∧
    compute_kappa ["include", "exclude"] ["exclude", "include"] = some (-1) := by
  refine ⟨⟨?_, ?_⟩, ?_, ?_⟩
  · intro h
    by_cases h1 : l1.length < 2
    · exact Or.inl h1
    by_cases hC : (l1.toFinset ∪ l2.toFinset).card < 2
    · exact Or.inr hC
    exfalso
    unfold compute_kappa cohen_kappa_score at h
    rw [if_neg h1, if_neg hC, if_neg (fun hne => hne hlen)] at h
    simp at h
  · intro h
    unfold compute_kappa
    by_cases h1 : l1.length < 2
    · rw [if_pos h1]
    · rcases h with h | h
      · exact absurd h h1
      · rw [if_neg h1, if_pos h]
  · intro hl hc
    refine ⟨p_e_lt_one l1 l2 hlen hl halpha hc, ?_⟩
    unfold compute_kappa cohen_kappa_score
    rw [if_neg (by omega), if_neg (by omega), if_neg (fun hne => hne hlen)]
  · have hpo : p_o ["include", "exclude"] ["exclude", "include"] = 0 := by
      norm_num [p_o, List.zip, List.zipWith, List.countP, List.countP.go]
      decide
    have hne1 : (("exclude" : String) = "include") = False := by simp
    have hne2 : (("include" : String) = "exclude") = False := by simp
    have hne3 : (("exclude" : String) = "uncertain") = False := by simp
    have hne4 : (("include" : String) = "uncertain") = False := by simp
    have hpe : p_e ["include", "exclude"] ["exclude", "include"] = 1/2 := by
      norm_num [p_e, LABEL_ORDER, List.count_cons, List.count_nil, hne1, hne2, hne3, hne4]
    unfold compute_kappa cohen_kappa_score
    rw [if_neg (by decide), if_neg (by decide), if_neg (by decide)]
    rw [hpo, hpe]
    norm_num [round4, round_eq]

/-- C5 witness: a same-length, single-class input of length 2 is in the
undefined regime and returns None. -/
theorem C5_witness :
    compute_kappa ["include", "include"] ["include", "include"] = none :=
  (C5_compute_kappa_none_iff ["include", "include"] ["include", "include"] rfl
    (by decide)).1.mpr (Or.inr (by decide))

/-- C6 counterexample: on mismatched-length input the underlying scorer
rejects the call, but `compute_kappa` swallows that error through its blanket
exception handler and returns the value None — it does not fail. -/
theorem C6_counterexample :
    cohen_kappa_score ["include", "exclude", "include"] ["include", "exclude"] =
      Except.error "Found input variables with inconsistent numbers of samples" ∧
    compute_kappa ["include", "exclude", "include"] ["include", "exclude"] = none := by
  constructor
  · rfl
  · decide

/-- C6 (amended): for every pair of label sequences of different lengths,
`compute_kappa` returns None rather than propagating a failure. -/
theorem C6_mismatched_lengths_return_none (l1 l2 : List String)
    (h : l1.length ≠ l2.length) : compute_kappa l1 l2 = none := by
  unfold compute_kappa
  by_cases h1 : l1.length < 2
  · rw [if_pos h1]
  · rw [if_neg h1]
    by_cases hC : (l1.toFinset ∪ l2.toFinset).card < 2
    · rw [if_pos hC]
    · rw [if_neg hC]
      unfold cohen_kappa_score
      rw [if_pos h]

/-- C6 witness: a concrete mismatched-length call returns None. -/
theorem C6_witness :
    compute_kappa ["include", "exclude", "include"] ["include", "exclude"] = none :=
  C6_mismatched_lengths_return_none ["include", "exclude", "include"]
    ["include", "exclude"] (by decide)

lemma firstMatch_first_wins (sim : String → String → ℚ) (norm : String)
    (pre : List (ℕ × String)) (oid : ℕ) (onorm : String) (post : List (ℕ × String))
    (hpre : ∀ p ∈ pre, sim norm p.2 < THRESHOLD) (hhit : THRESHOLD ≤ sim norm onorm) :
    firstMatch sim norm (pre ++ (oid, onorm) :: post) = some oid := by
  induction pre with
  | nil =>
    simp only [List.nil_append, firstMatch]
    rw [if_pos hhit]
  | cons q t ih =>
    have hq := hpre q (List.mem_cons_self q t)
    have ht : ∀ p ∈ t, sim norm p.2 < THRESHOLD :=
      fun p hp => hpre p (List.mem_cons_of_mem q hp)
    obtain ⟨qid, qnorm⟩ := q
    simp only [List.cons_append, firstMatch]
    rw [if_neg (not_le.mpr hq)]
    exact ih ht

lemma firstMatch_none (sim : String → String → ℚ) (norm : String)
    (origs : List (ℕ × String)) (h : ∀ p ∈ origs, sim norm p.2 < THRESHOLD) :
    firstMatch sim norm origs = none := by
  induction origs with
  | nil => rfl
  | cons q t ih =>
    have hq := h q (List.mem_cons_self q t)
    obtain ⟨qid, qnorm⟩ := q
    simp only [firstMatch]
    rw [if_neg (not_le.mpr hq)]
    exact ih fun p hp => h p (List.mem_cons_of_mem _ hp)

lemma findDupGo_empty_title (sim : String → String → ℚ)
    (papers : List (ℕ × Option String)) (origs : List (ℕ × String))
    (pid : ℕ) (t : Option String) (hmem : (pid, t) ∈ papers) (hempty : normalise t = "") :
    (pid, (none : Option ℕ)) ∈ findDupGo sim papers origs := by
  induction papers generalizing origs with
  | nil => exact absurd hmem (List.not_mem_nil _)
  | cons q rest ih =>
    obtain ⟨qid, qt⟩ := q
    rcases List.mem_cons.mp hmem with hq | hq
    · cases hq
      simp [findDupGo, hempty]
    · simp only [findDupGo]
      cases hd : (if normalise qt = "" then (none : Option ℕ)
          else firstMatch sim (normalise qt) origs) with
      | none => exact List.mem_cons_of_mem _ (ih (origs ++ [(qid, normalise qt)]) hq)
      | some o => exact List.mem_cons_of_mem _ (ih origs hq)

/-- A concrete similarity matrix witnessing that the FIRST original at or
above the threshold wins even when a LATER original scores higher: "x"
scores 0.96 against "a" (the earlier original) and 0.99 against "b". -/
def simFB : String → String → ℚ := fun s1 s2 =>
  if s1 = "x" ∧ s2 = "a" then mkRat 96 100
  else if s1 = "x" ∧ s2 = "b" then mkRat 99 100
  else if s1 = s2 then 1
  else 0

/-- C7: `find_duplicates` maps the second of two identical nonempty titles to
the id of the first record (whenever the similarity metric is maximal on identical
strings, as Jaro-Winkler is); records with empty or missing titles are always
kept as unique originals (mapped to None); the matching loop returns the
first earlier-kept original at or above 0.95 — in input insertion order, not
the best-scoring one, as the `simFB` instance shows — and None when no kept
original reaches the threshold. -/
theorem C7_find_duplicates_first_match :
    (∀ (sim : String → String → ℚ) (i1 i2 : ℕ) (t : Option String),
      normalise t ≠ "" → THRESHOLD ≤ sim (normalise t) (normalise t) →
      find_duplicates sim [(i1, t), (i2, t)] = [(i1, none), (i2, some i1)]) ∧
    (∀ (sim : String → String → ℚ) (papers : List (ℕ × Option String)) (pid : ℕ)
      (t : Option String), (pid, t) ∈ papers → normalise t = "" →
      (pid, (none : Option ℕ)) ∈ find_duplicates sim papers) ∧
    (∀ (sim : String → String → ℚ) (norm : String) (pre : List (ℕ × String))
      (oid : ℕ) (onorm : String) (post : List (ℕ × String)),
      (∀ p ∈ pre, sim norm p.2 < THRESHOLD) → THRESHOLD ≤ sim norm onorm →
      firstMatch sim norm (pre ++ (oid, onorm) :: post) = some oid) ∧
    (∀ (sim : String → String → ℚ) (norm : String) (origs : List (ℕ × String)),
      (∀ p ∈ origs, sim norm p.2 < THRESHOLD) → firstMatch sim norm origs = none) ∧
    (find_duplicates simFB [(1, some "a"), (2, some "b"), (3, some "x")] =
        [(1, none), (2, none), (3, some 1)] ∧
      THRESHOLD ≤ simFB "x" "b" ∧ simFB "x" "a" < simFB "x" "b") := by
  refine ⟨?_, ?_, ?_, ?_, ?_⟩
  · intro sim i1 i2 t hne hsim
    simp [find_duplicates, findDupGo, firstMatch, hne, hsim]
  · exact fun sim papers pid t hmem hempty =>
      findDupGo_empty_title sim papers [] pid t hmem hempty
  · exact fun sim norm pre oid onorm post hpre hhit =>
      firstMatch_first_wins sim norm pre oid onorm post hpre hhit
  · exact fun sim norm origs h => firstMatch_none sim norm origs h
  · refine ⟨by decide, by decide, by decide⟩

/-- C7 witness: two identical titles — the second is flagged as a duplicate
of the first. -/
theorem C7_witness :
    find_duplicates (fun _ _ => 1)
      [(7, some "Ketamine for depression"), (8, some "Ketamine for depression")] =
      [(7, none), (8, some 7)] :=
  C7_find_duplicates_first_match.1 (fun _ _ => 1) 7 8 (some "Ketamine for depression")
    (by decide) (by decide)

/-- A concrete symmetric similarity matrix with a non-transitive match
pattern: "a" matches "b" and "b" matches "c", but "a" does not match "c". -/
def simCE : String → String → ℚ := fun s1 s2 =>
  if s1 = s2 then 1
  else if (s1 = "a" ∧ s2 = "b") ∨ (s1 = "b" ∧ s2 = "a") ∨
      (s1 = "b" ∧ s2 = "c") ∨ (s1 = "c" ∧ s2 = "b") then 1
  else 0

/-- The input order on which the duplicate count is order-sensitive. -/
def papersCE : List (ℕ × Option String) := [(1, some "a"), (2, some "c"), (3, some "b")]

/-- C8 counterexample: for a fixed pairwise similarity matrix (`simCE`,
symmetric and 1 on identical strings), reversing the input changes the number
of records flagged as duplicates: 1 duplicate in the original order, 2 in the
reversed order. -/
theorem C8_counterexample :
    duplicateCount (find_duplicates simCE papersCE) = 1 ∧
    duplicateCount (find_duplicates simCE papersCE.reverse) = 2 ∧
    duplicateCount (find_duplicates simCE papersCE) ≠
      duplicateCount (find_duplicates simCE papersCE.reverse) := by
  refine ⟨by decide, by decide, by decide⟩

/-- C8 (amended): reversing the input order can change which ids are flagged
as originals versus duplicates — and, when the similarity relation at the
threshold is not transitive, it can also change the count of duplicates; the
count is not an order invariant. -/
theorem C8_reversal_changes_flags_and_count :
    (2, (none : Option ℕ)) ∈ find_duplicates simCE papersCE ∧
    (2, some 3) ∈ find_duplicates simCE papersCE.reverse ∧
    ∃ (sim : String → String → ℚ) (papers : List (ℕ × Option String)),
      duplicateCount (find_duplicates sim papers) ≠
        duplicateCount (find_duplicates sim papers.reverse) := by
  exact ⟨by decide, by decide, simCE, papersCE, by decide⟩
